import Mathlib

/-!
Shallow embedding of the transaction-history cache, pagination and
status-poll rate limiter (hooks `useTransactionsManager`,
`useTransactionPagination`, `useTransactionFilters`,
`useTransactionObservables`, `useTransactionStatusRefresh`,
`useTransactionTypes`, `useTransactionsState`).

Conventions:
* wall-clock instants are integers in milliseconds since the epoch
  (`Date.getTime()`); the source's `secondsSinceCreated = (now - createdAt)
  / 1000` is a float, so each comparison `secondsSinceCreated <= c` with an
  integral threshold `c` in seconds is embedded as the exactly equivalent
  millisecond comparison `now - createdAt <= c * 1000`;
* a nullable JS number is `Option Int` (`none` = `null`); the JS comparison
  `a < b` coerces `null` to `0`, embedded by `jsLtOpt`; strict equality
  `===` on nullable numbers is `Option Int` equality;
* an async fetch is an oracle argument `Except Unit Txn` (at most one fetch
  occurs per poll call) resp. `Except Unit FetchResponse`; `.error`
  embeds a rejected promise, which the source catches;
* hook state (`useState`/`useRef`) is passed explicitly as a state record;
  a call returns the new state together with the list of page requests it
  issued, so that "performs a fetch" is observable in the model.
-/

namespace TxnHistory

/-- Transaction status values (`TxnStatusType` constants) used by the hooks. -/
inductive TxnStatus
  | SUCCESS
  | DECLINED
  | EXPIRED
  | PENDING
  | DELEGATE_INITIATED
  | FAILURE
deriving DecidableEq

/-- `payerInfo.role` string; `NONE` stands for an absent / unrelated role. -/
inductive Role
  | PRIMARY
  | SECONDARY
  | NONE
deriving DecidableEq

/-- `purpose` codes consulted by `isICDCashDepositPendingTransaction`
(`TxnPurposeCode`); `OTHER` stands for every other purpose code. -/
inductive Purpose
  | SEND_TO_SELF
  | SEND_TO_OTHER
  | OTHER
deriving DecidableEq

/-- The `txnInfo` fields read by the embedded hooks. -/
structure TxnInfo where
  isICDRequested : Bool := false
  isReqChkTxnExhausted : Bool := false
deriving DecidableEq

/-- Server-supplied poll counters (`reqChkTxnParams`): `currentCount` and
`maxCount` are nullable in the source, `checkPoint2` is a number of
seconds. -/
structure ReqChkTxnParams where
  currentCount : Option Int := none
  maxCount : Option Int := none
  checkPoint2 : Int := 0
deriving DecidableEq

/-- A transaction, restricted to the fields the embedded hooks read.  The
same record also embeds `refreshedTransaction.transaction` (the status
fetch result), whose extra field is `reqChkTxnParams`; on a plain list
transaction that field is never read. -/
structure Txn where
  id : String
  status : TxnStatus
  createdAt : Int := 0
  selfInitiated : Bool := true
  purpose : Purpose := .OTHER
  role : Role := .NONE
  payerName : String := ""
  txnInfo : TxnInfo := {}
  reqChkTxnParams : ReqChkTxnParams := {}
deriving DecidableEq

/-- `isICDCashDepositPendingTransaction` from `useTransactionTypes.ts`:
an interstitial "cash-deposit pending" transaction that must never be
cached. -/
def isICDCashDepositPendingTransaction (t : Txn) : Bool :=
  decide (t.status = .PENDING ∧
    (t.selfInitiated = true ∨ t.selfInitiated = false) ∧
    t.txnInfo.isICDRequested = false ∧
    (t.purpose = .SEND_TO_SELF ∨ t.purpose = .SEND_TO_OTHER))

/-- User-facing notifications, one constructor per `SnackService` message
key of `useTransactionStatusRefresh.ts` (interpolated display strings are
not modelled except for the arguments that identify the outcome). -/
inductive Notification
  | pendingStatusLimitExceededDefault
  | pendingStatusBlock (reqChkTxnCheckPoint1 : Int)
  | somethingWrong
  | pendingStatusAfterSomeTime
  | delegateInitiatedPrimary
  | delegateInitiatedSecondary (name : String)
  | pendingStatusWithinTwoHours
  | pendingStatusAttemptsExceeded
  | pendingStatusAfterTwoHoursAttempts
deriving DecidableEq

/-- One entry of the JSON list persisted under
`UserPreferenceKeys.reqChkTxnParams`. -/
structure StoredRecord where
  transactionId : String
  reqChkTxnParams : ReqChkTxnParams
  isReqChkTxnExhausted : Bool
  refreshedCreatedAt : Int
deriving DecidableEq

/-- Result of one `fetchTransactionStatusDetails` call: the persisted store
after the call, the notifications emitted in order, the number of status
fetches attempted, and the transaction returned (if any). -/
structure PollResult where
  store : List StoredRecord
  notes : List Notification
  fetches : Nat
  ret : Option Txn
deriving DecidableEq

/-- JS `<` on nullable numbers: `null` coerces to `0`. -/
def jsLtOpt (a b : Option Int) : Bool := decide (a.getD 0 < b.getD 0)

/-- `isNonFinalStatus` of the source: not success, declined or expired. -/
def isNonFinalStatus (s : TxnStatus) : Bool :=
  decide (s ≠ .SUCCESS ∧ s ≠ .DECLINED ∧ s ≠ .EXPIRED)

/-- In-place update `parsed[idx].reqChkTxnParams = ...;
parsed[idx].isReqChkTxnExhausted = ...` of the found record, expressed by
transaction id (ids are unique in the store: a record is only created when
no record with that id exists). -/
def updateRecord (store : List StoredRecord) (id : String)
    (p : ReqChkTxnParams) (ex : Bool) : List StoredRecord :=
  store.map fun r =>
    if r.transactionId = id then
      { r with reqChkTxnParams := p, isReqChkTxnExhausted := ex }
    else r

/-- The three non-delegate branches of `handleTransactionStatusMessages`,
emitted in source order. -/
def generalStatusMessages (status : TxnStatus) (isExhausted : Bool)
    (currentCount maxCount : Option Int) : List Notification :=
  (if isExhausted && decide (status ≠ .SUCCESS) then
    [.pendingStatusLimitExceededDefault] else [])
  ++ (if !isExhausted && isNonFinalStatus status then
    [.pendingStatusWithinTwoHours] else [])
  ++ (if !isExhausted && decide (maxCount = currentCount) && isNonFinalStatus status then
    [.pendingStatusAttemptsExceeded] else [])

/-- `handleTransactionStatusMessages`: delegate-initiated with null counters
returns early with a role-specific message (only for PRIMARY / SECONDARY
roles); otherwise the general classification runs. -/
def handleTransactionStatusMessages (status : TxnStatus) (isExhausted : Bool)
    (role : Role) (name : String) (currentCount maxCount : Option Int) :
    List Notification :=
  if status = .DELEGATE_INITIATED ∧ currentCount = none ∧ maxCount = none then
    if role = .PRIMARY then [.delegateInitiatedPrimary]
    else if role = .SECONDARY then [.delegateInitiatedSecondary name]
    else generalStatusMessages status isExhausted currentCount maxCount
  else generalStatusMessages status isExhausted currentCount maxCount

/-- `handleFirstTimeRefresh`, applied to the already-fetched transaction
`r` (the fetch that produced `r` is the one counted here).  The record is
persisted only when both counters are non-null. -/
def handleFirstTimeRefresh (r : Txn) (parsedReqChkTxnData : List StoredRecord) :
    PollResult :=
  let p := r.reqChkTxnParams
  let newRecord : StoredRecord :=
    { transactionId := r.id, reqChkTxnParams := p,
      isReqChkTxnExhausted := r.txnInfo.isReqChkTxnExhausted,
      refreshedCreatedAt := r.createdAt }
  let store :=
    if p.currentCount ≠ none ∧ p.maxCount ≠ none then
      newRecord :: parsedReqChkTxnData
    else parsedReqChkTxnData
  { store := store,
    notes := handleTransactionStatusMessages r.status
      r.txnInfo.isReqChkTxnExhausted r.role r.payerName
      p.currentCount p.maxCount,
    fetches := 1,
    ret := some r }

/-- `handleAfterCheckpoint2Refresh`: fetch, update the stored record from
the response, classify with the after-two-hours variant.  A rejected fetch
is swallowed into the generic failure message. -/
def handleAfterCheckpoint2Refresh (transaction : Txn)
    (store : List StoredRecord) (fetch : Except Unit Txn) : PollResult :=
  match fetch with
  | .error _ => { store := store, notes := [.somethingWrong], fetches := 1, ret := none }
  | .ok r =>
    let p := r.reqChkTxnParams
    let isExhausted := r.txnInfo.isReqChkTxnExhausted
    let store' := updateRecord store transaction.id p isExhausted
    let notes :=
      (if isExhausted && decide (r.status ≠ .SUCCESS) then
        [.pendingStatusLimitExceededDefault] else [])
      ++ (if !isExhausted && isNonFinalStatus r.status then
        [.pendingStatusAfterTwoHoursAttempts] else [])
    { store := store', notes := notes, fetches := 1, ret := some r }

/-- `handleWithinCheckpoint2Refresh`: fetch, update the stored record from
the response, classify with the within-two-hours variant using the
response's counters. -/
def handleWithinCheckpoint2Refresh (transaction : Txn)
    (store : List StoredRecord) (fetch : Except Unit Txn) : PollResult :=
  match fetch with
  | .error _ => { store := store, notes := [.somethingWrong], fetches := 1, ret := none }
  | .ok r =>
    let p := r.reqChkTxnParams
    let store' := updateRecord store transaction.id p r.txnInfo.isReqChkTxnExhausted
    let notes :=
      (if decide (p.maxCount = p.currentCount) && isNonFinalStatus r.status then
        [.pendingStatusAttemptsExceeded] else [])
      ++ (if decide (p.maxCount ≠ p.currentCount) && isNonFinalStatus r.status then
        [.pendingStatusWithinTwoHours] else [])
    { store := store', notes := notes, fetches := 1, ret := some r }

/-- `handleSubsequentRefresh`, branching on the stored record found for the
transaction: past checkpoint2, within checkpoint2 with attempts left,
exhausted, or cooldown. -/
def handleSubsequentRefresh (transaction : Txn) (store : List StoredRecord)
    (stored : StoredRecord) (msSinceCreated : Int) (fetch : Except Unit Txn) :
    PollResult :=
  let p := stored.reqChkTxnParams
  let isExhausted := stored.isReqChkTxnExhausted
  if !isExhausted && decide (msSinceCreated ≥ p.checkPoint2 * 1000) then
    handleAfterCheckpoint2Refresh transaction store fetch
  else if !isExhausted && jsLtOpt p.currentCount p.maxCount then
    handleWithinCheckpoint2Refresh transaction store fetch
  else if isExhausted then
    { store := store, notes := [.pendingStatusLimitExceededDefault],
      fetches := 0, ret := none }
  else
    { store := store, notes := [.pendingStatusAfterSomeTime],
      fetches := 0, ret := none }

/-- `fetchTransactionStatusDetails` (`pollStatus`): the whole status-poll
rate limiter for one call, with `now` the wall clock and `fetch` the
status-fetch oracle. -/
def fetchTransactionStatusDetails (transaction : Txn)
    (reqChkTxnCheckPoint1 : Int) (now : Int) (fetch : Except Unit Txn)
    (store : List StoredRecord) : PollResult :=
  let isExhausted := transaction.txnInfo.isReqChkTxnExhausted
  let msSinceCreated := now - transaction.createdAt
  if isExhausted then
    { store := store, notes := [.pendingStatusLimitExceededDefault],
      fetches := 0, ret := none }
  else if transaction.role ≠ .PRIMARY ∧ transaction.role ≠ .SECONDARY ∧
      msSinceCreated ≤ reqChkTxnCheckPoint1 * 1000 then
    { store := store, notes := [.pendingStatusBlock reqChkTxnCheckPoint1],
      fetches := 0, ret := none }
  else
    match store.find? (fun item => item.transactionId == transaction.id) with
    | none =>
      match fetch with
      | .error _ =>
        { store := store, notes := [.somethingWrong], fetches := 1, ret := none }
      | .ok r => handleFirstTimeRefresh r store
    | some stored =>
      handleSubsequentRefresh transaction store stored msSinceCreated fetch

/-- Repeated `pollStatus` calls, threading the persisted store; each call
supplies its own wall clock and fetch oracle.  Returns the final store and
the total number of fetches attempted. -/
def iteratePoll (transaction : Txn) (reqChkTxnCheckPoint1 : Int) :
    List (Int × Except Unit Txn) → List StoredRecord →
    List StoredRecord × Nat
  | [], store => (store, 0)
  | (now, fetch) :: rest, store =>
    let res := fetchTransactionStatusDetails transaction reqChkTxnCheckPoint1
      now fetch store
    let tail := iteratePoll transaction reqChkTxnCheckPoint1 rest res.store
    (tail.1, res.fetches + tail.2)

/-! ### Cache store, pagination engine and refresh trigger -/

/-- A filter / date-mode object: a mapping of string keys to string values
(`{}` = no filter). -/
abbrev Filter := List (String × String)

/-- One page request issued through `getTransactions(isCircle, filter,
pageSize, offset)`; inside the API hook a circle request replaces the
filter by the fixed `{ upiCircle: 'Y' }` marker. -/
structure FetchRequest where
  isCircle : Bool
  filter : Filter
  limit : Int
  offset : Int
deriving DecidableEq

/-- A `transactionsList` response as consumed by the manager: the `error`
flag with its `userMessage`, the page of transactions and the server-side
total count.  Display-only fields (`totalCbAmount`,
`reqChkTxnCheckPoint1`) are not modelled: no claim mentions them. -/
structure FetchResponse where
  error : Bool := false
  userMessage : String := ""
  transactions : List Txn := []
  txnsCount : Int := 0
deriving DecidableEq

/-- The `Maybe` wrapper published on a `BehaviorSubject`:
`Maybe.unresolved()`, `Maybe.of(data)` or `Maybe.error(msg)`. -/
inductive MaybeVal (α : Type)
  | unresolved
  | val (data : α)
  | err (msg : String)
deriving DecidableEq

/-- A published `PaginatedTransactions` page (display-only fields
`totalCbAmount` and `reqChkTxnCheckPoint1` omitted: no claim mentions
them). -/
structure PaginatedTransactions where
  hasNext : Bool
  transactions : List Txn
  count : Int
  fetchedTimestamp : Int
  showShimmer : Bool := false
deriving DecidableEq

/-- Fixed page size of the pagination engine. -/
def pageSize : Int := 20

/-- `hasNextPage` from `useTransactionPagination.ts`:
`offset + pageSize < count`. -/
def hasNextPage (count offset : Int) : Bool := decide (offset + pageSize < count)

/-- `paginate` from `useTransactionPagination.ts`, reduced to the modelled
fields. -/
def paginate (txnsCount : Int) (transactions : List Txn) (offset : Int)
    (lastUpdated : Int) : PaginatedTransactions :=
  { transactions := transactions, count := txnsCount,
    hasNext := hasNextPage txnsCount offset, fetchedTimestamp := lastUpdated }

/-- Drop the interstitial cash-deposit-pending transactions, as both
`onSuccess` and the load-more paths do
(`filter((txn) => !isICDCashDepositPendingTransaction(txn))`). -/
def filterICD (l : List Txn) : List Txn :=
  l.filter fun t => !isICDCashDepositPendingTransaction t

/-- `onSuccess` from `useTransactionPagination.ts`: the value published for
a first-page response (a replacement, not an append). -/
def onSuccess (response : FetchResponse) (offset lastUpdated : Int) :
    MaybeVal PaginatedTransactions :=
  if response.error then .err response.userMessage
  else .val (paginate response.txnsCount (filterICD response.transactions)
    offset lastUpdated)

/-- The state held by `useTransactionsState` (plus the two observable refs'
current values; `none` = the ref is still `null`). -/
structure MgrState where
  offset : Int := 0
  filter : Filter := []
  dateMode : Filter := []
  lastUpdated : Option Int := none
  errorOccuredDuringLastUpdate : Bool := false
  transactionsObservable : Option (MaybeVal PaginatedTransactions) := none
  circleTransactionsObservable : Option (MaybeVal PaginatedTransactions) := none
deriving DecidableEq

/-- The state on first use: offset 0, empty filter and date mode, no
timestamp, no error, neither observable created. -/
def initialMgrState : MgrState := {}

/-- The transient shimmer page `forceUpdate` publishes on an
already-created main observable. -/
def shimmerData (now : Int) : PaginatedTransactions :=
  { hasNext := false, transactions := [], count := 1,
    fetchedTimestamp := now, showShimmer := true }

/-- The transient shimmer page `forceCircleUpdate` publishes (`count: 0`
in the source, unlike the main list's `count: 1`). -/
def circleShimmerData (now : Int) : PaginatedTransactions :=
  { hasNext := false, transactions := [], count := 0,
    fetchedTimestamp := now, showShimmer := true }

/-- The synchronous part of `forceUpdate` from `useTransactionsManager.ts`:
reset the offset, stamp `lastUpdated`, clear the error flag, create the
observable or publish the shimmer page, and issue the first-page request
`getTransactions(false, filter, pageSize, 0)`.  The response is applied
separately (`onSuccess` / `onError`). -/
def forceUpdate (st : MgrState) (now : Int) : MgrState × FetchRequest :=
  let st := { st with offset := 0, lastUpdated := some now,
                      errorOccuredDuringLastUpdate := false }
  let st :=
    match st.transactionsObservable with
    | none => { st with transactionsObservable := some .unresolved }
    | some _ =>
      { st with transactionsObservable := some (.val (shimmerData now)) }
  (st, { isCircle := false, filter := st.filter, limit := pageSize, offset := 0 })

/-- The synchronous part of `forceCircleUpdate`, issuing
`getTransactions(true, {}, pageSize, 0)`. -/
def forceCircleUpdate (st : MgrState) (now : Int) : MgrState × FetchRequest :=
  let st := { st with offset := 0, lastUpdated := some now,
                      errorOccuredDuringLastUpdate := false }
  let st :=
    match st.circleTransactionsObservable with
    | none => { st with circleTransactionsObservable := some .unresolved }
    | some _ =>
      { st with circleTransactionsObservable := some (.val (circleShimmerData now)) }
  (st, { isCircle := true, filter := [], limit := pageSize, offset := 0 })

/-- Publish a value on the main observable (`.then((res) => onSuccess(...))`
continuation of `forceUpdate`). -/
def applyMainResult (st : MgrState) (m : MaybeVal PaginatedTransactions) :
    MgrState :=
  { st with transactionsObservable := some m }

/-- A `forceUpdate` whose first-page response has arrived and been applied
through `onSuccess` at offset 0. -/
def firstPageLoad (st : MgrState) (now : Int) (response : FetchResponse) :
    MgrState :=
  applyMainResult (forceUpdate st now).1 (onSuccess response 0 now)

/-- `hasExpired` from `useTransactionsManager.ts`: no timestamp yet, or at
least 30 minutes elapsed. -/
def hasExpired (st : MgrState) (now : Int) : Bool :=
  match st.lastUpdated with
  | none => true
  | some t => decide (now - t ≥ 30 * 60 * 1000)

/-- `shouldUpdate`: main observable never created, last update errored, or
the (shared) timestamp expired. -/
def shouldUpdate (st : MgrState) (now : Int) : Bool :=
  !st.transactionsObservable.isSome || st.errorOccuredDuringLastUpdate ||
    hasExpired st now

/-- `shouldUpdateCircleHistory`: same, for the circle observable. -/
def shouldUpdateCircleHistory (st : MgrState) (now : Int) : Bool :=
  !st.circleTransactionsObservable.isSome || st.errorOccuredDuringLastUpdate ||
    hasExpired st now

/-- `fetchMore` from `useTransactionsManager.ts`.  Guarded only by the
error flag and the existence of the observable; it increments the offset,
reads the currently published transactions, requests the next page at
`offset + pageSize` and publishes the concatenation.  Reading
`getValue().data.transactions` of an unresolved or error `Maybe` faults,
landing in the surrounding catch, which publishes a failure before any
request is issued. -/
def fetchMore (st : MgrState) (response : Except Unit FetchResponse) :
    MgrState × List FetchRequest :=
  match st.transactionsObservable, st.errorOccuredDuringLastUpdate with
  | some m, false =>
    let newOffset := st.offset + pageSize
    let st1 := { st with offset := st.offset + pageSize }
    match m with
    | .val page =>
      let existingTransactions := page.transactions
      let req : FetchRequest :=
        { isCircle := false, filter := st.filter, limit := pageSize,
          offset := newOffset }
      match response with
      | .error _ =>
        let failed : MaybeVal PaginatedTransactions :=
          .err "Failed to fetch more transactions"
        ({ st1 with transactionsObservable := some failed }, [req])
      | .ok resp =>
        if resp.error then
          let failed : MaybeVal PaginatedTransactions := .err resp.userMessage
          ({ st1 with transactionsObservable := some failed }, [req])
        else
          let filteredTxns := filterICD resp.transactions
          let data : PaginatedTransactions :=
            { hasNext := hasNextPage resp.txnsCount newOffset,
              transactions := existingTransactions ++ filteredTxns,
              count := resp.txnsCount,
              fetchedTimestamp := st.lastUpdated.getD 0 }
          ({ st1 with transactionsObservable := some (.val data) }, [req])
    | _ =>
      let failed : MaybeVal PaginatedTransactions :=
        .err "Failed to fetch more transactions"
      ({ st1 with transactionsObservable := some failed }, [])
  | _, _ => (st, [])

/-- A sequence of `fetchMore` calls, one response per call, collecting the
requests issued. -/
def loadMoreSeq : MgrState → List (Except Unit FetchResponse) →
    MgrState × List FetchRequest
  | st, [] => (st, [])
  | st, r :: rs =>
    let head := fetchMore st r
    let tail := loadMoreSeq head.1 rs
    (tail.1, head.2 ++ tail.2)

/-- The `hasNext` value after folding a list of successful load-more
responses over an initial page: the last response's `txnsCount` tested
against the offset of the request that produced it. -/
def lastHasNext (init : Bool) (offset : Int) :
    List FetchResponse → Bool
  | [] => init
  | r :: rs => lastHasNext (hasNextPage r.txnsCount (offset + pageSize))
      (offset + pageSize) rs

/-- The requests a successful load-more sequence issues: consecutive
offsets `offset + pageSize, offset + 2·pageSize, …` under the stable
filter. -/
def loadMoreRequests (f : Filter) (offset : Int) :
    List FetchResponse → List FetchRequest
  | [] => []
  | _ :: rs =>
    { isCircle := false, filter := f, limit := pageSize,
      offset := offset + pageSize } ::
      loadMoreRequests f (offset + pageSize) rs

/-! ### Filter operations (`useTransactionFilters`)

Each operation runs `setFilter(...)` / `setDateMode(...)` followed by
`forceUpdate()`.  The setters are deferred `useState` updates: they only
land in the committed state after the event handler returns, while
`forceUpdate` is the `useCallback` instance of the current render, whose
closure still binds the pre-change `filter`.  So the request issued during
the call carries the OLD filter; the new filter / date mode appears only
in the state committed afterwards.  The embeddings therefore run
`forceUpdate` on the pre-change state and merge the deferred setter into
the resulting state. -/

/-- `applyFilter`: `setFilter(filterBy); forceUpdate();` — the request goes
out under the pre-change filter, the new filter lands afterwards. -/
def applyFilter (st : MgrState) (now : Int) (filterBy : Filter) :
    MgrState × FetchRequest :=
  let res := forceUpdate st now
  ({ res.1 with filter := filterBy }, res.2)

/-- `applyDateMode`: `setDateMode(dateModeBy); forceUpdate();` — the date
mode never enters the request; it lands in the committed state. -/
def applyDateMode (st : MgrState) (now : Int) (dateModeBy : Filter) :
    MgrState × FetchRequest :=
  let res := forceUpdate st now
  ({ res.1 with dateMode := dateModeBy }, res.2)

/-- `clearFilter`: `setFilter({}); forceUpdate();` — the request still
carries the pre-change filter. -/
def clearFilter (st : MgrState) (now : Int) : MgrState × FetchRequest :=
  let res := forceUpdate st now
  ({ res.1 with filter := [] }, res.2)

/-- `clearDateMode`: `setDateMode({}); forceUpdate();`. -/
def clearDateMode (st : MgrState) (now : Int) : MgrState × FetchRequest :=
  let res := forceUpdate st now
  ({ res.1 with dateMode := [] }, res.2)

/-- `clearFilterWithUpdate`: `setFilter({}); setDateMode({});
forceUpdate();` — the request still carries the pre-change filter. -/
def clearFilterWithUpdate (st : MgrState) (now : Int) :
    MgrState × FetchRequest :=
  let res := forceUpdate st now
  ({ res.1 with filter := [], dateMode := [] }, res.2)

/-- `filterforupiId`: `setFilter({ vpa: upiId }); forceUpdate();` — the
request still carries the pre-change filter. -/
def filterforupiId (st : MgrState) (now : Int) (upiId : String) :
    MgrState × FetchRequest :=
  let res := forceUpdate st now
  ({ res.1 with filter := [("vpa", upiId)] }, res.2)

/-- `upiLitefilter`: `setFilter({ upiLite: upilite }); forceUpdate();` —
the request still carries the pre-change filter. -/
def upiLitefilter (st : MgrState) (now : Int) (upilite : String) :
    MgrState × FetchRequest :=
  let res := forceUpdate st now
  ({ res.1 with filter := [("upiLite", upilite)] }, res.2)

/-! ### Payment-event subscription (`useTransactionObservables`) -/

/-- The tags of the merged payment-outcome event stream
(`PaymentAction`); `COLLECT_REQUEST` stands for an event value outside the
subscription's recognized list. -/
inductive PaymentAction
  | SENT
  | APPROVED
  | DECLINED
  | FAILED
  | DIRECT_PAY_FAILED
  | DIRECT_PAY_SENT
  | COLLECT_REQUEST
deriving DecidableEq

/-- The list the subscription's `rxJsFilter(... includes(action, [...]))`
tests against. -/
def recognizedPaymentActions : List PaymentAction :=
  [.SENT, .APPROVED, .DECLINED, .FAILED, .DIRECT_PAY_FAILED, .DIRECT_PAY_SENT]

/-- Delivery of one merged-stream event to the subscription installed by
`subscribePaymentActions`: a recognized tag passes the filter and invokes
`forceUpdate` once; any other tag is dropped. -/
def onPaymentAction (st : MgrState) (now : Int) (action : PaymentAction) :
    MgrState × List FetchRequest :=
  if action ∈ recognizedPaymentActions then
    let res := forceUpdate st now
    (res.1, [res.2])
  else (st, [])

/-! ### Concrete inputs used by witnesses and counterexamples -/

/-- A pending transaction whose caller-side `txnInfo` already marks the
poll attempts as exhausted. -/
def exhaustedTxn : Txn :=
  { id := "txn-1", status := .PENDING, createdAt := 0, role := .NONE,
    txnInfo := { isReqChkTxnExhausted := true } }

/-- A pending transaction, role absent, not exhausted. -/
def freshTxn : Txn :=
  { id := "txn-1", status := .PENDING, createdAt := 0, role := .NONE }

/-- `freshTxn` as seen by a PRIMARY caller. -/
def primaryTxn : Txn := { freshTxn with role := .PRIMARY }

/-- A status-fetch response for the delegate-initiated case: null counters,
PRIMARY role. -/
def delegateResponseTxn : Txn :=
  { id := "txn-1", status := .DELEGATE_INITIATED, createdAt := 0,
    role := .PRIMARY, payerName := "Asha",
    reqChkTxnParams := { currentCount := none, maxCount := none,
                         checkPoint2 := 7200 } }

/-- A status-fetch response with counters 1/3, still pending. -/
def countedResponseTxn : Txn :=
  { id := "txn-1", status := .PENDING, createdAt := 0, role := .PRIMARY,
    reqChkTxnParams := { currentCount := some 1, maxCount := some 3,
                         checkPoint2 := 7200 } }

/-- A status-fetch response with counters 3/3, still pending, not
exhausted. -/
def fullCountResponseTxn : Txn :=
  { id := "txn-1", status := .PENDING, createdAt := 0, role := .PRIMARY,
    reqChkTxnParams := { currentCount := some 3, maxCount := some 3,
                         checkPoint2 := 7200 } }

/-- A persisted record with `currentCount = maxCount = 3`, not exhausted. -/
def fullCountRecord : StoredRecord :=
  { transactionId := "txn-1",
    reqChkTxnParams := { currentCount := some 3, maxCount := some 3,
                         checkPoint2 := 7200 },
    isReqChkTxnExhausted := false, refreshedCreatedAt := 0 }

/-- A persisted record with `currentCount = 1 < maxCount = 3`, not
exhausted. -/
def partialCountRecord : StoredRecord :=
  { transactionId := "txn-1",
    reqChkTxnParams := { currentCount := some 1, maxCount := some 3,
                         checkPoint2 := 7200 },
    isReqChkTxnExhausted := false, refreshedCreatedAt := 0 }

/-- A persisted record already marked exhausted. -/
def exhaustedRecord : StoredRecord :=
  { transactionId := "txn-1",
    reqChkTxnParams := { currentCount := some 1, maxCount := some 3,
                         checkPoint2 := 7200 },
    isReqChkTxnExhausted := true, refreshedCreatedAt := 0 }

/-- A manager state whose main observable currently shows the shimmer
(loading) page, as published by `forceUpdate` while a refresh is in
flight. -/
def shimmerState : MgrState :=
  { offset := 20, lastUpdated := some 5,
    transactionsObservable := some (.val (shimmerData 5)) }

/-- A cached list transaction (successful send). -/
def plainTxn : Txn := { id := "txn-A", status := .SUCCESS }

/-- A second cached list transaction. -/
def plainTxn2 : Txn := { id := "txn-B", status := .DECLINED }

/-- A first-page response: one transaction, 30 in total. -/
def firstResp : FetchResponse := { transactions := [plainTxn], txnsCount := 30 }

/-- A load-more response: one transaction, 25 in total. -/
def secondResp : FetchResponse := { transactions := [plainTxn2], txnsCount := 25 }

/-- A state with a committed `{ vpa: old@upi }` filter and one resolved
cached page. -/
def oldFilterState : MgrState :=
  { filter := [("vpa", "old@upi")],
    transactionsObservable := some (.val
      { hasNext := true, transactions := [plainTxn], count := 30,
        fetchedTimestamp := 0 }) }

/-- The observable value right after the synchronous part of `forceUpdate`:
created unresolved on first use, otherwise the shimmer page (whose item
list is empty, discarding everything accumulated so far). -/
def publishedAfterReset (st : MgrState) (now : Int) :
    Option (MaybeVal PaginatedTransactions) :=
  match st.transactionsObservable with
  | none => some .unresolved
  | some _ => some (.val (shimmerData now))

/-! ## Theorems -/

/-- One `pollStatus` call on a transaction that is exhausted — in the
caller-supplied `txnInfo` or in the persisted record found for its id —
leaves the store untouched and attempts no fetch. -/
theorem poll_exhausted_single (transaction : Txn) (c1 now : Int)
    (fetch : Except Unit Txn) (store : List StoredRecord)
    (hex : transaction.txnInfo.isReqChkTxnExhausted = true ∨
      ∃ stored,
        store.find? (fun item => item.transactionId == transaction.id) =
          some stored ∧ stored.isReqChkTxnExhausted = true) :
    (fetchTransactionStatusDetails transaction c1 now fetch store).store = store ∧
    (fetchTransactionStatusDetails transaction c1 now fetch store).fetches = 0 := by
  rcases hex with hex | ⟨stored, hfind, hst⟩
  · simp [fetchTransactionStatusDetails, hex]
  · by_cases htx : transaction.txnInfo.isReqChkTxnExhausted
    · simp [fetchTransactionStatusDetails, htx]
    · by_cases hblk : transaction.role ≠ .PRIMARY ∧ transaction.role ≠ .SECONDARY ∧
          now - transaction.createdAt ≤ c1 * 1000
      · simp [fetchTransactionStatusDetails, htx, hblk]
      · simp [fetchTransactionStatusDetails, htx, hblk, hfind,
          handleSubsequentRefresh, hst]
        split <;> exact ⟨rfl, rfl⟩

/-- The checkpoint1 block condition, in the normal form `simp` produces
from the embedded `if`. -/
theorem blockCond_norm {role : Role} {now created c1 : Int}
    (hblk : ¬(role ≠ Role.PRIMARY ∧ role ≠ Role.SECONDARY ∧
      now - created ≤ c1 * 1000)) :
    ¬(¬role = Role.PRIMARY ∧ ¬role = Role.SECONDARY ∧
      now ≤ c1 * 1000 + created) := by
  rintro ⟨h1, h2, h3⟩
  exact hblk ⟨h1, h2, by omega⟩

/-- Claim C3: for a transaction whose exhausted flag is set — in the
caller-supplied `txnInfo` or in the persisted checkpoint record — any
number of repeated `pollStatus` (`fetchTransactionStatusDetails`) calls
performs zero status fetches and leaves the persisted store unchanged. -/
theorem pollStatus_exhausted_idempotent (transaction : Txn) (c1 : Int)
    (calls : List (Int × Except Unit Txn)) (store : List StoredRecord)
    (hex : transaction.txnInfo.isReqChkTxnExhausted = true ∨
      ∃ stored,
        store.find? (fun item => item.transactionId == transaction.id) =
          some stored ∧ stored.isReqChkTxnExhausted = true) :
    iteratePoll transaction c1 calls store = (store, 0) := by
  induction calls with
  | nil => rfl
  | cons c rest ih =>
    obtain ⟨now, fetch⟩ := c
    have h := poll_exhausted_single transaction c1 now fetch store hex
    simp [iteratePoll, h.1, h.2, ih]

/-- Witness for C3: two polls on an already-exhausted transaction touch
nothing and fetch nothing. -/
theorem pollStatus_exhausted_idempotent_witness :
    iteratePoll exhaustedTxn 120 [(60000, .error ()), (200000, .error ())] []
      = ([], 0) :=
  pollStatus_exhausted_idempotent exhaustedTxn 120 _ [] (Or.inl rfl)

/-- Claim C4 as stated is false on the code at two concrete inputs: (i) a
transaction already exhausted, role absent, age 60 s ≤ checkpoint1 = 120 s,
yields the limit-exceeded outcome, not the blocked one; (ii) at age 130 s
with no persisted record, a successful fetch whose counters are null
(delegate-initiated) performs one fetch but creates no persisted record. -/
theorem pollStatus_checkpoint1_counterexample :
    (fetchTransactionStatusDetails exhaustedTxn 120 60000 (.error ()) []).notes
        = [.pendingStatusLimitExceededDefault] ∧
    (fetchTransactionStatusDetails exhaustedTxn 120 60000 (.error ()) []).notes
        ≠ [.pendingStatusBlock 120] ∧
    (fetchTransactionStatusDetails freshTxn 120 130000
        (.ok delegateResponseTxn) []).fetches = 1 ∧
    (fetchTransactionStatusDetails freshTxn 120 130000
        (.ok delegateResponseTxn) []).store = [] := by
  refine ⟨by decide, by decide, by decide, by decide⟩

/-- Claim C4 (amended): provided the transaction is not already exhausted,
a caller whose role is neither PRIMARY nor SECONDARY with age at most
checkpoint1 gets the blocked outcome and zero fetches; and at age above
checkpoint1 with no persisted record, a successful fetch whose counters
are non-null performs exactly one fetch and prepends a persisted record
built from the response. -/
theorem pollStatus_checkpoint1_gating (transaction r : Txn) (c1 now : Int)
    (store : List StoredRecord)
    (hex : transaction.txnInfo.isReqChkTxnExhausted = false) :
    ((transaction.role ≠ .PRIMARY ∧ transaction.role ≠ .SECONDARY ∧
        now - transaction.createdAt ≤ c1 * 1000) →
      ∀ fetch, fetchTransactionStatusDetails transaction c1 now fetch store =
        { store := store, notes := [.pendingStatusBlock c1], fetches := 0,
          ret := none })
    ∧ (now - transaction.createdAt > c1 * 1000 →
        store.find? (fun item => item.transactionId == transaction.id) = none →
        r.reqChkTxnParams.currentCount ≠ none →
        r.reqChkTxnParams.maxCount ≠ none →
        (fetchTransactionStatusDetails transaction c1 now (.ok r) store).fetches
            = 1 ∧
        (fetchTransactionStatusDetails transaction c1 now (.ok r) store).store =
          { transactionId := r.id, reqChkTxnParams := r.reqChkTxnParams,
            isReqChkTxnExhausted := r.txnInfo.isReqChkTxnExhausted,
            refreshedCreatedAt := r.createdAt } :: store) := by
  constructor
  · intro hblk fetch
    simp [fetchTransactionStatusDetails, hex, hblk]
  · intro hage hfind hcc hmc
    have hblk : ¬(transaction.role ≠ .PRIMARY ∧ transaction.role ≠ .SECONDARY ∧
        now - transaction.createdAt ≤ c1 * 1000) := by
      rintro ⟨-, -, hle⟩
      omega
    simp [fetchTransactionStatusDetails, hex, hblk, hfind,
      handleFirstTimeRefresh, hcc, hmc]
    have hcond : ¬(¬transaction.role = Role.PRIMARY ∧
        ¬transaction.role = Role.SECONDARY ∧
        now ≤ c1 * 1000 + transaction.createdAt) := by
      rintro ⟨-, -, h⟩
      omega
    rw [if_neg hcond]
    exact ⟨rfl, rfl⟩

/-- Witness for the amended C4, at checkpoint1 = 120 s: age 60 s with role
absent is blocked with zero fetches; age 130 s with no record and a 1/3
response performs one fetch and creates the record. -/
theorem pollStatus_checkpoint1_gating_witness :
    fetchTransactionStatusDetails freshTxn 120 60000 (.error ()) [] =
      { store := [], notes := [.pendingStatusBlock 120], fetches := 0,
        ret := none } ∧
    (fetchTransactionStatusDetails freshTxn 120 130000
        (.ok countedResponseTxn) []).fetches = 1 ∧
    (fetchTransactionStatusDetails freshTxn 120 130000
        (.ok countedResponseTxn) []).store =
      [{ transactionId := "txn-1",
         reqChkTxnParams := { currentCount := some 1, maxCount := some 3,
                              checkPoint2 := 7200 },
         isReqChkTxnExhausted := false, refreshedCreatedAt := 0 }] := by
  refine ⟨(pollStatus_checkpoint1_gating freshTxn countedResponseTxn 120 60000 []
      rfl).1 (by decide) _, ?_⟩
  have h := (pollStatus_checkpoint1_gating freshTxn countedResponseTxn 120 130000
      [] rfl).2 (by decide) (by decide) (by decide) (by decide)
  exact ⟨h.1, h.2⟩

/-- Claim C5 as stated is false on the code at two concrete inputs: (i)
with a persisted record `currentCount = maxCount = 3`, not exhausted, the
only branch that still fetches is the past-checkpoint2 one, and a
non-terminal response there yields the after-two-hours informational
outcome, never the attempts-exceeded one; (ii) with a persisted record
marked exhausted but a caller within checkpoint1 (role absent, age 60 s,
status pending ≠ success), the outcome is the blocked one, not the
limit-exceeded one. -/
theorem pollStatus_attempts_counterexample :
    (fetchTransactionStatusDetails primaryTxn 120 7200000
        (.ok fullCountResponseTxn) [fullCountRecord]).notes =
      [.pendingStatusAfterTwoHoursAttempts] ∧
    Notification.pendingStatusAttemptsExceeded ∉
      (fetchTransactionStatusDetails primaryTxn 120 7200000
        (.ok fullCountResponseTxn) [fullCountRecord]).notes ∧
    (fetchTransactionStatusDetails freshTxn 120 60000 (.error ())
        [exhaustedRecord]).notes = [.pendingStatusBlock 120] ∧
    (fetchTransactionStatusDetails freshTxn 120 60000 (.error ())
        [exhaustedRecord]).notes ≠ [.pendingStatusLimitExceededDefault] := by
  refine ⟨by decide, by decide, by decide, by decide⟩

/-- Claim C5 (amended): on the subsequent-refresh path (record found, call
not blocked by checkpoint1, caller flag not exhausted): (i) if the stored
record is not exhausted, has `currentCount < maxCount` and the call is
within checkpoint2, a fetch occurs, and a response reporting
`currentCount = maxCount` (e.g. 3/3) with a non-terminal status produces
exactly the attempts-exceeded notification; (ii) if the stored record is
exhausted, the outcome is the limit-exceeded notification with no fetch,
regardless of the counts and of the status. -/
theorem pollStatus_attempts_classification (transaction r : Txn)
    (stored : StoredRecord) (c1 now : Int) (store : List StoredRecord)
    (hex : transaction.txnInfo.isReqChkTxnExhausted = false)
    (hblk : ¬(transaction.role ≠ .PRIMARY ∧ transaction.role ≠ .SECONDARY ∧
        now - transaction.createdAt ≤ c1 * 1000))
    (hfind : store.find? (fun item => item.transactionId == transaction.id) =
      some stored) :
    ((stored.isReqChkTxnExhausted = false →
      jsLtOpt stored.reqChkTxnParams.currentCount
        stored.reqChkTxnParams.maxCount = true →
      now - transaction.createdAt < stored.reqChkTxnParams.checkPoint2 * 1000 →
      r.reqChkTxnParams.maxCount = r.reqChkTxnParams.currentCount →
      isNonFinalStatus r.status = true →
      (fetchTransactionStatusDetails transaction c1 now (.ok r) store).notes =
          [.pendingStatusAttemptsExceeded] ∧
      (fetchTransactionStatusDetails transaction c1 now (.ok r) store).fetches
          = 1)
    ∧ (stored.isReqChkTxnExhausted = true →
      ∀ fetch,
        (fetchTransactionStatusDetails transaction c1 now fetch store).notes =
            [.pendingStatusLimitExceededDefault] ∧
        (fetchTransactionStatusDetails transaction c1 now fetch store).fetches
            = 0)) := by
  constructor
  · intro hst hcnt hcp2 hmceq hnf
    have hnotge : ¬(now - transaction.createdAt ≥
        stored.reqChkTxnParams.checkPoint2 * 1000) := by omega
    simp [fetchTransactionStatusDetails, hex, hblk, hfind,
      handleSubsequentRefresh, hst, hnotge, hcnt,
      handleWithinCheckpoint2Refresh, hmceq, hnf]
    rw [if_neg (blockCond_norm hblk)]
    exact ⟨rfl, rfl⟩
  · intro hst fetch
    simp [fetchTransactionStatusDetails, hex, hblk, hfind,
      handleSubsequentRefresh, hst]
    rw [if_neg (blockCond_norm hblk)]
    exact ⟨rfl, rfl⟩

/-- Witness for the amended C5: (i) a record at 1/3, within checkpoint2,
whose fetch returns 3/3 still pending, yields the attempts-exceeded
notification; (ii) an exhausted record yields the limit-exceeded outcome
with no fetch. -/
theorem pollStatus_attempts_classification_witness :
    ((fetchTransactionStatusDetails primaryTxn 120 60000
        (.ok fullCountResponseTxn) [partialCountRecord]).notes =
      [.pendingStatusAttemptsExceeded] ∧
    (fetchTransactionStatusDetails primaryTxn 120 60000
        (.ok fullCountResponseTxn) [partialCountRecord]).fetches = 1) ∧
    ((fetchTransactionStatusDetails primaryTxn 120 60000 (.error ())
        [exhaustedRecord]).notes = [.pendingStatusLimitExceededDefault] ∧
    (fetchTransactionStatusDetails primaryTxn 120 60000 (.error ())
        [exhaustedRecord]).fetches = 0) := by
  constructor
  · exact (pollStatus_attempts_classification primaryTxn fullCountResponseTxn
      partialCountRecord 120 60000 [partialCountRecord] rfl (by decide)
      (by decide)).1 rfl (by decide) (by decide) (by decide) (by decide)
  · exact (pollStatus_attempts_classification primaryTxn fullCountResponseTxn
      exhaustedRecord 120 60000 [exhaustedRecord] rfl (by decide)
      (by decide)).2 rfl (.error ())

/-- A rejected status fetch leaves the store unchanged, and wherever the
fetch was actually attempted the lone notification is the generic
failure. -/
theorem poll_error_preserves (transaction : Txn) (c1 now : Int) (e : Unit)
    (store : List StoredRecord) :
    (fetchTransactionStatusDetails transaction c1 now (.error e) store).store
        = store ∧
    ((fetchTransactionStatusDetails transaction c1 now (.error e) store).fetches
        = 0 ∨
      (fetchTransactionStatusDetails transaction c1 now (.error e) store).notes
        = [.somethingWrong]) := by
  by_cases htx : transaction.txnInfo.isReqChkTxnExhausted
  · simp [fetchTransactionStatusDetails, htx]
  · by_cases hblk : transaction.role ≠ .PRIMARY ∧ transaction.role ≠ .SECONDARY ∧
        now - transaction.createdAt ≤ c1 * 1000
    · simp [fetchTransactionStatusDetails, htx, hblk]
    · cases hfind : store.find? (fun item => item.transactionId == transaction.id)
      with
      | none =>
        simp [fetchTransactionStatusDetails, htx, hblk, hfind]
        rw [if_neg (blockCond_norm hblk)]
        exact ⟨rfl, Or.inr rfl⟩
      | some stored =>
        simp [fetchTransactionStatusDetails, htx, hblk, hfind,
          handleSubsequentRefresh, handleAfterCheckpoint2Refresh,
          handleWithinCheckpoint2Refresh]
        rw [if_neg (blockCond_norm hblk)]
        split_ifs <;>
          first
            | exact ⟨rfl, Or.inl rfl⟩
            | exact ⟨rfl, Or.inr rfl⟩

/-- Claim C6: a failed status fetch is swallowed into the single generic
failure notification and never touches the persisted checkpoint store;
conversely the store only ever changes when the fetch oracle returned
successfully. -/
theorem pollStatus_failure_safe (transaction : Txn) (c1 now : Int)
    (store : List StoredRecord) :
    ((fetchTransactionStatusDetails transaction c1 now (.error ()) store).store
        = store ∧
      ((fetchTransactionStatusDetails transaction c1 now (.error ()) store).fetches
          = 0 ∨
        (fetchTransactionStatusDetails transaction c1 now (.error ()) store).notes
          = [.somethingWrong]))
    ∧ ∀ fetch : Except Unit Txn,
        (fetchTransactionStatusDetails transaction c1 now fetch store).store
            ≠ store →
        ∃ r, fetch = .ok r := by
  refine ⟨poll_error_preserves transaction c1 now () store, ?_⟩
  intro fetch hne
  cases fetch with
  | ok r => exact ⟨r, rfl⟩
  | error e => exact absurd (poll_error_preserves transaction c1 now e store).1 hne

/-- Witness for C6: a rejected fetch on an empty store leaves it empty with
only the generic failure message, while the store change seen on a
successful first fetch indeed came from an `ok` oracle. -/
theorem pollStatus_failure_safe_witness :
    ((fetchTransactionStatusDetails freshTxn 120 130000 (.error ()) []).store
        = [] ∧
      (fetchTransactionStatusDetails freshTxn 120 130000 (.error ()) []).notes
        = [.somethingWrong]) ∧
    ∃ r, (Except.ok countedResponseTxn : Except Unit Txn) = .ok r := by
  refine ⟨⟨(pollStatus_failure_safe freshTxn 120 130000 []).1.1, by decide⟩, ?_⟩
  exact (pollStatus_failure_safe freshTxn 120 130000 []).2
    (.ok countedResponseTxn) (by decide)

/-- Claim C10: a first status fetch that returns null `currentCount` and
`maxCount` (the delegate-initiated case) writes nothing to the persisted
store — a later poll still finds no record — even though the role-specific
delegate notification is shown. -/
theorem pollStatus_delegate_no_record (transaction r : Txn) (c1 now : Int)
    (store : List StoredRecord)
    (hex : transaction.txnInfo.isReqChkTxnExhausted = false)
    (hblk : ¬(transaction.role ≠ .PRIMARY ∧ transaction.role ≠ .SECONDARY ∧
        now - transaction.createdAt ≤ c1 * 1000))
    (hfind : store.find? (fun item => item.transactionId == transaction.id) =
      none)
    (hcc : r.reqChkTxnParams.currentCount = none)
    (hmc : r.reqChkTxnParams.maxCount = none)
    (hst : r.status = .DELEGATE_INITIATED)
    (hrole : r.role = .PRIMARY ∨ r.role = .SECONDARY) :
    (fetchTransactionStatusDetails transaction c1 now (.ok r) store).store
        = store ∧
    (fetchTransactionStatusDetails transaction c1 now (.ok r) store).store.find?
        (fun item => item.transactionId == transaction.id) = none ∧
    ((fetchTransactionStatusDetails transaction c1 now (.ok r) store).notes
        = [.delegateInitiatedPrimary] ∨
      (fetchTransactionStatusDetails transaction c1 now (.ok r) store).notes
        = [.delegateInitiatedSecondary r.payerName]) := by
  have hres : fetchTransactionStatusDetails transaction c1 now (.ok r) store =
      { store := store,
        notes := handleTransactionStatusMessages r.status
          r.txnInfo.isReqChkTxnExhausted r.role r.payerName
          r.reqChkTxnParams.currentCount r.reqChkTxnParams.maxCount,
        fetches := 1, ret := some r } := by
    simp [fetchTransactionStatusDetails, hex, hblk, hfind,
      handleFirstTimeRefresh, hcc, hmc]
    intro h1 h2
    by_contra hle
    exact hblk ⟨h1, h2, by omega⟩
  rw [hres, hfind]
  refine ⟨rfl, rfl, ?_⟩
  rcases hrole with hrole | hrole <;>
    simp [handleTransactionStatusMessages, hst, hcc, hmc, hrole]

/-- Witness for C10: a delegate-initiated null-counter first fetch for a
PRIMARY caller creates no record and shows the primary delegate
notification. -/
theorem pollStatus_delegate_no_record_witness :
    (fetchTransactionStatusDetails primaryTxn 120 130000
        (.ok delegateResponseTxn) []).store = [] ∧
    (fetchTransactionStatusDetails primaryTxn 120 130000
        (.ok delegateResponseTxn) []).store.find?
        (fun item => item.transactionId == primaryTxn.id) = none ∧
    ((fetchTransactionStatusDetails primaryTxn 120 130000
        (.ok delegateResponseTxn) []).notes = [.delegateInitiatedPrimary] ∨
      (fetchTransactionStatusDetails primaryTxn 120 130000
        (.ok delegateResponseTxn) []).notes =
        [.delegateInitiatedSecondary delegateResponseTxn.payerName]) :=
  pollStatus_delegate_no_record primaryTxn delegateResponseTxn 120 130000 []
    rfl (by decide) (by decide) rfl rfl rfl (Or.inl rfl)

/-- Claim C2 as stated is false on the code: the two lists do not track
their `fetchedAt` independently.  Concretely, after a main-list fetch at
t = 0 and a circle-list fetch at t = 1 800 000 ms, a query at
t = 2 000 000 ms has `now - (main list's own fetch time) = 2 000 000 ms ≥
1 800 000 ms`, so the claim requires `shouldRefresh(main) = true`, but the
code returns `false`: the circle fetch reset the single shared
`lastUpdated` clock. -/
theorem shouldRefresh_shared_clock_counterexample :
    shouldUpdate
      (forceCircleUpdate (forceUpdate initialMgrState 0).1 1800000).1
      2000000 = false ∧
    (2000000 - 0 : Int) ≥ 1800000 := by
  exact ⟨by decide, by decide⟩

/-- Claim C2 (amended): `shouldRefresh(list)` is true iff that list's
observable was never created, the shared error flag is set, or now minus
the single shared `lastUpdated` timestamp (stamped by either list's fetch)
is at least 1800 s; boundary: `fetchedAt = now - 1801 s` gives true,
`fetchedAt = now - 1799 s` gives false. -/
theorem shouldRefresh_characterization (st : MgrState) (now : Int) :
    ((shouldUpdate st now = true ↔
      st.transactionsObservable = none ∨
      st.errorOccuredDuringLastUpdate = true ∨
      st.lastUpdated = none ∨
      ∃ t, st.lastUpdated = some t ∧ now - t ≥ 1800000)
    ∧ (shouldUpdateCircleHistory st now = true ↔
      st.circleTransactionsObservable = none ∨
      st.errorOccuredDuringLastUpdate = true ∨
      st.lastUpdated = none ∨
      ∃ t, st.lastUpdated = some t ∧ now - t ≥ 1800000))
    ∧ shouldUpdate
        { st with transactionsObservable := some .unresolved,
                  errorOccuredDuringLastUpdate := false,
                  lastUpdated := some (now - 1801000) } now = true
    ∧ shouldUpdate
        { st with transactionsObservable := some .unresolved,
                  errorOccuredDuringLastUpdate := false,
                  lastUpdated := some (now - 1799000) } now = false := by
  refine ⟨⟨?_, ?_⟩, ?_, ?_⟩
  · cases hobs : st.transactionsObservable <;>
      cases hlu : st.lastUpdated <;>
        simp [shouldUpdate, hasExpired, hobs, hlu]
  · cases hobs : st.circleTransactionsObservable <;>
      cases hlu : st.lastUpdated <;>
        simp [shouldUpdateCircleHistory, hasExpired, hobs, hlu]
  · simp [shouldUpdate, hasExpired]
  · simp [shouldUpdate, hasExpired]

/-- Claim C7 evaluated at the failing input: a `fetchMore` call while the
main observable holds the shimmer (loading) page and the error flag is
clear is not a no-op — it still advances the offset from 20 to 40 and
issues one page request (appending onto the shimmer's empty item list). -/
theorem fetchMore_during_shimmer_fetches :
    (fetchMore shimmerState (.ok { txnsCount := 100 })).2 =
      [{ isCircle := false, filter := [], limit := pageSize, offset := 40 }] ∧
    (fetchMore shimmerState (.ok { txnsCount := 100 })).1.offset = 40 ∧
    shimmerState.offset = 20 := by
  exact ⟨by decide, by decide, by decide⟩

/-- Claim C8 evaluated at the failing input: `applyFilter({ vpa: new@upi })`
on a state whose committed filter is `{ vpa: old@upi }` does reset the
offset to 0, discard the cached items (publishing the empty shimmer page)
and issue the fetch at offset 0, and the new filter lands in the committed
state — but the request carries the pre-change filter `{ vpa: old@upi }`,
not the new one: `setFilter` is a deferred state update and `forceUpdate`'s
closure still binds the old filter. -/
theorem applyFilter_stale_closure :
    (applyFilter oldFilterState 9 [("vpa", "new@upi")]).1.offset = 0 ∧
    (applyFilter oldFilterState 9 [("vpa", "new@upi")]).1.filter =
      [("vpa", "new@upi")] ∧
    (applyFilter oldFilterState 9 [("vpa", "new@upi")]).1.transactionsObservable
        = some (.val (shimmerData 9)) ∧
    (shimmerData 9).transactions = [] ∧
    (applyFilter oldFilterState 9 [("vpa", "new@upi")]).2 =
      { isCircle := false, filter := [("vpa", "old@upi")], limit := pageSize,
        offset := 0 } ∧
    ([("vpa", "old@upi")] : Filter) ≠ [("vpa", "new@upi")] := by
  refine ⟨by decide, by decide, by decide, by decide, by decide, by decide⟩

/-- Claim C9: a recognized payment-outcome event delivered to the
subscription triggers exactly one `forceUpdate` of the main list — the
offset is reset to 0 and a single first-page request is issued — while an
unrecognized event leaves the state untouched and issues nothing. -/
theorem payment_event_triggers_refresh (st : MgrState) (now : Int)
    (action : PaymentAction) :
    (action ∈ recognizedPaymentActions →
      (onPaymentAction st now action).2 =
        [{ isCircle := false, filter := st.filter, limit := pageSize,
           offset := 0 }] ∧
      (onPaymentAction st now action).1.offset = 0 ∧
      (onPaymentAction st now action).1.transactionsObservable =
        publishedAfterReset st now)
    ∧ (action ∉ recognizedPaymentActions →
        onPaymentAction st now action = (st, [])) := by
  constructor
  · intro hmem
    cases hobs : st.transactionsObservable <;>
      simp [onPaymentAction, hmem, forceUpdate, publishedAfterReset, hobs]
  · intro hmem
    simp [onPaymentAction, hmem]

/-- Witness for C9: a `SENT` event on a fresh state issues exactly the
offset-0 request; a `COLLECT_REQUEST` event issues nothing. -/
theorem payment_event_triggers_refresh_witness :
    ((onPaymentAction initialMgrState 0 .SENT).2 =
        [{ isCircle := false, filter := [], limit := pageSize, offset := 0 }] ∧
      (onPaymentAction initialMgrState 0 .SENT).1.offset = 0 ∧
      (onPaymentAction initialMgrState 0 .SENT).1.transactionsObservable =
        publishedAfterReset initialMgrState 0) ∧
    onPaymentAction initialMgrState 0 .COLLECT_REQUEST =
      (initialMgrState, []) := by
  exact ⟨(payment_event_triggers_refresh initialMgrState 0 .SENT).1 (by decide),
    (payment_event_triggers_refresh initialMgrState 0 .COLLECT_REQUEST).2
      (by decide)⟩

/-- One successful `fetchMore` on a resolved page: the offset advances by
`pageSize`, one request is issued at the advanced offset, and the new page
appends the response's filtered items onto the cached ones, with `hasNext`
recomputed from the response's total at the request's offset. -/
theorem fetchMore_ok_val (st : MgrState) (page : PaginatedTransactions)
    (resp : FetchResponse)
    (hobs : st.transactionsObservable = some (.val page))
    (herr : st.errorOccuredDuringLastUpdate = false)
    (hre : resp.error = false) :
    fetchMore st (.ok resp) =
      ({ st with offset := st.offset + pageSize,
                 transactionsObservable := some (.val
                   { hasNext := hasNextPage resp.txnsCount (st.offset + pageSize),
                     transactions := page.transactions ++ filterICD resp.transactions,
                     count := resp.txnsCount,
                     fetchedTimestamp := st.lastUpdated.getD 0 }) },
        [{ isCircle := false, filter := st.filter, limit := pageSize,
           offset := st.offset + pageSize }]) := by
  unfold fetchMore
  rw [hobs, herr]
  simp [hre]

/-- `lastHasNext` is the `hasNextPage` of the last response against the
offset of the request that produced it. -/
theorem lastHasNext_getLast (init : Bool) (off : Int)
    (resps : List FetchResponse) :
    lastHasNext init off resps =
      match resps.getLast? with
      | none => init
      | some rlast =>
        hasNextPage rlast.txnsCount (off + pageSize * resps.length) := by
  induction resps generalizing init off with
  | nil => rfl
  | cons r rs ih =>
    rw [lastHasNext, ih]
    cases rs with
    | nil => simp [pageSize]
    | cons b bs =>
      rw [List.getLast?_cons_cons]
      cases hl : (b :: bs).getLast? with
      | none => simp at hl
      | some rlast =>
        simp only []
        congr 1
        simp only [List.length_cons]
        push_cast
        ring

/-- `hasNextPage` is false exactly when `offset + pageSize ≥ count`. -/
theorem hasNextPage_false_iff (count offset : Int) :
    hasNextPage count offset = false ↔ offset + pageSize ≥ count := by
  simp [hasNextPage, not_lt]

/-- Folding any number of successful `fetchMore` calls over a resolved
page: the cached sequence is the initial items followed by each response's
filtered items in order, the offset advances by `pageSize` per call, the
requests are issued at consecutive offsets under the stable filter, and
`hasNext` comes from the last response. -/
theorem loadMoreSeq_ok_spec (resps : List FetchResponse) (st : MgrState)
    (page : PaginatedTransactions)
    (hobs : st.transactionsObservable = some (.val page))
    (herr : st.errorOccuredDuringLastUpdate = false)
    (hok : ∀ r ∈ resps, r.error = false) :
    ∃ page',
      (loadMoreSeq st (resps.map .ok)).1.transactionsObservable =
        some (.val page') ∧
      page'.transactions = page.transactions ++
        (resps.map fun r => filterICD r.transactions).flatten ∧
      page'.hasNext = lastHasNext page.hasNext st.offset resps ∧
      (loadMoreSeq st (resps.map .ok)).1.offset =
        st.offset + pageSize * resps.length ∧
      (loadMoreSeq st (resps.map .ok)).2 =
        loadMoreRequests st.filter st.offset resps := by
  induction resps generalizing st page with
  | nil =>
    exact ⟨page, hobs, by simp, rfl, by simp [loadMoreSeq], rfl⟩
  | cons r rs ih =>
    have hstep := fetchMore_ok_val st page r hobs herr (hok r (by simp))
    obtain ⟨page', h1, h2, h3, h4, h5⟩ := ih
      { st with offset := st.offset + pageSize,
                transactionsObservable := some (.val
                  { hasNext := hasNextPage r.txnsCount (st.offset + pageSize),
                    transactions := page.transactions ++ filterICD r.transactions,
                    count := r.txnsCount,
                    fetchedTimestamp := st.lastUpdated.getD 0 }) }
      { hasNext := hasNextPage r.txnsCount (st.offset + pageSize),
        transactions := page.transactions ++ filterICD r.transactions,
        count := r.txnsCount,
        fetchedTimestamp := st.lastUpdated.getD 0 }
      rfl herr (fun x hx => hok x (by simp [hx]))
    refine ⟨page', ?_, ?_, ?_, ?_, ?_⟩
    · simpa [loadMoreSeq, hstep] using h1
    · rw [h2]
      simp [List.append_assoc]
    · rw [h3, lastHasNext]
    · rw [List.map_cons]
      show (loadMoreSeq st (.ok r :: rs.map .ok)).1.offset = _
      rw [loadMoreSeq]
      simp only [hstep]
      rw [h4]
      simp only [List.length_cons]
      push_cast
      ring
    · rw [List.map_cons]
      show (loadMoreSeq st (.ok r :: rs.map .ok)).2 = _
      rw [loadMoreSeq]
      simp only [hstep]
      rw [loadMoreRequests]
      simp [h5]

/-- Claim C1: starting from a first page loaded at offset 0, every
sequence of successful `loadMore` calls on the stable filter leaves the
cache holding exactly the ordered concatenation of each fetched page's
filtered items (earlier items are a preserved prefix, never truncated or
reordered, whatever the later totals), the requests go out at the
consecutive offsets `pageSize, 2·pageSize, …`, and the published `hasNext`
is false exactly when `offset + pageSize ≥ totalCount` of the last
response, with `offset` the offset at which that request was issued. -/
theorem loadMore_accumulates (st0 : MgrState) (now : Int)
    (first : FetchResponse) (resps : List FetchResponse)
    (hfirst : first.error = false) (hok : ∀ r ∈ resps, r.error = false) :
    ∃ page',
      (loadMoreSeq (firstPageLoad st0 now first)
          (resps.map .ok)).1.transactionsObservable = some (.val page') ∧
      page'.transactions = filterICD first.transactions ++
        (resps.map fun r => filterICD r.transactions).flatten ∧
      (loadMoreSeq (firstPageLoad st0 now first) (resps.map .ok)).2 =
        loadMoreRequests st0.filter 0 resps ∧
      (page'.hasNext = false ↔
        (match resps.getLast? with
          | none => (0 : Int) + pageSize ≥ first.txnsCount
          | some rlast =>
            pageSize * resps.length + pageSize ≥ rlast.txnsCount)) := by
  have hst : (firstPageLoad st0 now first).transactionsObservable =
      some (.val (paginate first.txnsCount (filterICD first.transactions)
        0 now)) := by
    simp [firstPageLoad, applyMainResult, onSuccess, hfirst]
  have herr : (firstPageLoad st0 now first).errorOccuredDuringLastUpdate
      = false := by
    cases hobs : st0.transactionsObservable <;>
      simp [firstPageLoad, applyMainResult, forceUpdate, hobs]
  have hoff : (firstPageLoad st0 now first).offset = 0 := by
    cases hobs : st0.transactionsObservable <;>
      simp [firstPageLoad, applyMainResult, forceUpdate, hobs]
  have hfil : (firstPageLoad st0 now first).filter = st0.filter := by
    cases hobs : st0.transactionsObservable <;>
      simp [firstPageLoad, applyMainResult, forceUpdate, hobs]
  obtain ⟨page', h1, h2, h3, h4, h5⟩ :=
    loadMoreSeq_ok_spec resps (firstPageLoad st0 now first)
      (paginate first.txnsCount (filterICD first.transactions) 0 now)
      hst herr hok
  refine ⟨page', h1, by simpa [paginate] using h2, by rwa [hoff, hfil] at h5, ?_⟩
  rw [h3, hoff, lastHasNext_getLast, paginate]
  cases hl : resps.getLast? with
  | none =>
    simp only [hl]
    rw [hasNextPage_false_iff]
  | some rlast =>
    simp only [hl]
    rw [hasNextPage_false_iff]
    constructor <;> intro h <;> omega

/-- Witness for C1: a first page of 1 item (total 30) followed by one
load-more of 1 item (total 25): the cache concatenates both filtered
pages, the single extra request goes out at offset 20, and `hasNext` is
false since 20 + 20 ≥ 25. -/
theorem loadMore_accumulates_witness :
    ∃ page',
      (loadMoreSeq (firstPageLoad initialMgrState 7 firstResp)
          ([secondResp].map .ok)).1.transactionsObservable =
        some (.val page') ∧
      page'.transactions = filterICD firstResp.transactions ++
        ([secondResp].map fun r => filterICD r.transactions).flatten ∧
      (loadMoreSeq (firstPageLoad initialMgrState 7 firstResp)
          ([secondResp].map .ok)).2 =
        loadMoreRequests initialMgrState.filter 0 [secondResp] ∧
      (page'.hasNext = false ↔
        (match [secondResp].getLast? with
          | none => (0 : Int) + pageSize ≥ firstResp.txnsCount
          | some rlast =>
            pageSize * ([secondResp] : List FetchResponse).length + pageSize
              ≥ rlast.txnsCount)) :=
  loadMore_accumulates initialMgrState 7 firstResp [secondResp] (by decide)
    (by decide)

end TxnHistory
